import Mathlib

/-!
# ChatGPT-Proxy-Executor: a shallow embedding of `main.go`

The development follows the source file top to bottom: the data model
(`APIKeys`, `Config`, `TypeStatus`, `APIKeyStatus`, `SysStatus`, `Status`), the
parts of `net/http` the program talks to (header maps, request construction,
the client call, the response writer), and then the four functions
`healthCheck`, `getAPIKeyStatus`, `checkTypeStatus` and `HandleProxy`.

Everything outside the program (the upstream server, the network, the client
connection, the goroutine scheduler) is an explicit argument, so that the
theorems hold for every behaviour of the outside world.
-/

namespace ProxyExecutor

/-! ## Data model (main.go lines 16-61) -/

/-- A Go byte slice. -/
abbrev Bytes := List UInt8

/-- The conversion of a Go string to the bytes it is made of (UTF-8). -/
def bytesOf (s : String) : Bytes := s.toList.flatMap String.utf8EncodeChar

/-- One element of the slice type APIKeys (lines 16-21). -/
structure APIKey where
  Index : Int
  Key : String
  Type_ : List String
  Remark : String
deriving DecidableEq, Repr

/-- The slice type of lines 16-21. -/
abbrev APIKeys := List APIKey

/-- The configuration of lines 23-30. -/
structure Config where
  APIKeys : APIKeys
  ExecutorName : String
  SchedulerCenter : String
  ReportEnable : Bool
  ReportDuration : Int
  ListenAddr : String
deriving DecidableEq, Repr

/-- The result of one capability check (lines 32-35). -/
structure TypeStatus where
  Type_ : String
  Status : String
deriving DecidableEq, Repr

/-- The report entry of one credential (lines 37-44).  The two float64 fields
are never assigned by the program, so only their zero value occurs; they are
kept as integers. -/
structure APIKeyStatus where
  Index : Int
  Key : String
  Usage : Int
  Limit : Int
  Remark : String
  TypeStatus : List TypeStatus
deriving DecidableEq, Repr

/-- The zero value of APIKeyStatus, as produced by make at line 139. -/
def APIKeyStatus.zero : APIKeyStatus :=
  { Index := 0, Key := "", Usage := 0, Limit := 0, Remark := "", TypeStatus := [] }

/-- The static part of the report (lines 46-49). -/
structure SysStatus where
  ExecutorName : String
  ExecutorAddr : String
deriving DecidableEq, Repr

/-- The report (lines 51-54). -/
structure Status where
  APIStatus : List APIKeyStatus
  SysStatus : SysStatus
deriving DecidableEq, Repr

/-- The constant of line 60. -/
def baseUrl : String := "https://api.openai.com"

/-- The constant of line 61. -/
def completionUri : String := "/v1/chat/completions"

/-! ## Go errors -/

/-- A Go error value: the sentinel io.EOF, or any other error with its text. -/
inductive GoError where
  | EOF : GoError
  | other (text : String) : GoError
deriving DecidableEq, Repr

/-- The method Error() of an error value. -/
def GoError.Error : GoError → String
  | GoError.EOF => "EOF"
  | GoError.other text => text

/-! ## net/http header maps -/

/-- A header map (map[string][]string) as an association list; only lookups
are observable, so the order of the list carries no meaning. -/
abbrev Header := List (String × List String)

/-- The bytes that may occur in a header field name (the token characters of
RFC 7230), as tested by net/textproto. -/
def validHeaderFieldByte (c : Char) : Bool :=
  let n := c.toNat
  (48 ≤ n && n ≤ 57) || (65 ≤ n && n ≤ 90) || (97 ≤ n && n ≤ 122) ||
    [33, 35, 36, 37, 38, 39, 42, 43, 45, 46, 94, 95, 96, 124, 126].contains n

/-- The rewriting pass of textproto.CanonicalMIMEHeaderKey: upper case at the
start and after each dash, lower case elsewhere. -/
def canonicalLoop : Bool → List Char → List Char
  | _, [] => []
  | upper, c :: cs =>
    let c1 :=
      if upper && (97 ≤ c.toNat && c.toNat ≤ 122) then Char.ofNat (c.toNat - 32)
      else if !upper && (65 ≤ c.toNat && c.toNat ≤ 90) then Char.ofNat (c.toNat + 32)
      else c
    c1 :: canonicalLoop (c1 == '-') cs

/-- The function textproto.CanonicalMIMEHeaderKey: a name holding a byte that
is not a token character is returned unchanged. -/
def CanonicalMIMEHeaderKey (s : String) : String :=
  if s.toList.all validHeaderFieldByte then String.mk (canonicalLoop true s.toList) else s

namespace Header

/-- The map index expression h[k]: the values stored under exactly the key k. -/
def lookup (h : Header) (k : String) : Option (List String) :=
  match h with
  | [] => none
  | (k1, vs) :: rest => if k1 = k then some vs else lookup rest k

/-- The map without the key k. -/
def erase (h : Header) (k : String) : Header :=
  h.filter (fun kv => decide (kv.1 ≠ k))

/-- The method Header.Set: the values of the canonical key become [v]. -/
def Set (h : Header) (k v : String) : Header :=
  (CanonicalMIMEHeaderKey k, [v]) :: h.erase (CanonicalMIMEHeaderKey k)

/-- The method Header.Add: v is appended to the values of the canonical key. -/
def Add (h : Header) (k v : String) : Header :=
  (CanonicalMIMEHeaderKey k, (h.lookup (CanonicalMIMEHeaderKey k)).getD [] ++ [v]) ::
    h.erase (CanonicalMIMEHeaderKey k)

end Header

/-! ## net/http requests, responses and the client -/

/-- An outbound request, as built by http.NewRequest and sent by client.Do. -/
structure OutRequest where
  Method : String
  URL : String
  Header : Header
  Body : Bytes
  Close : Bool
deriving DecidableEq, Repr

/-- One call of Read on a response body: the bytes it put into the buffer and
the error it returned with them. -/
structure ReadResult where
  data : Bytes
  err : Option GoError
deriving DecidableEq, Repr

/-- An upstream response.  The body is the script of the results that the
successive calls of Read return; once the script is exhausted Read returns no
byte and io.EOF. -/
structure Response where
  StatusCode : Int
  Header : Header
  Body : List ReadResult
deriving DecidableEq, Repr

/-- The outside world as net/http shows it to the program: whether
http.NewRequest rejects a method and URL (invalid method token, URL that does
not parse), and what a call of client.Do returns for a request (a transport
error, which covers timeouts, or a response). -/
structure Net where
  requestError : String → String → Option GoError
  Do : OutRequest → Except GoError Response

/-- The function http.NewRequest: an empty method means GET, the method and
the URL are validated, and the new request has an empty header map. -/
def NewRequest (net : Net) (method url : String) (body : Bytes) : Except GoError OutRequest :=
  let method := if method = "" then "GET" else method
  match net.requestError method url with
  | some err => Except.error err
  | none => Except.ok { Method := method, URL := url, Header := [], Body := body, Close := false }

/-! ## checkTypeStatus (lines 208-234) -/

/-- The request that checkTypeStatus builds at lines 213-218. -/
def probeRequest (net : Net) (key keyType : String) : Except GoError OutRequest :=
  match NewRequest net "POST" (baseUrl ++ completionUri)
      (bytesOf ("\x7b\n    \"model\": \"" ++ keyType ++ "\"\n\x7d")) with
  | Except.error err => Except.error err
  | Except.ok req =>
    Except.ok { req with
      Header := (req.Header.Set "Authorization" ("Bearer " ++ key)).Set
        "Content-Type" "application/json" }

/-- The function checkTypeStatus of lines 208-234; the result is the Go pair
(string, error). -/
def checkTypeStatus (net : Net) (key keyType : String) : String × Option GoError :=
  match probeRequest net key keyType with
  | Except.error err => ("", some err)
  | Except.ok req =>
    match net.Do req with
    | Except.error _ => ("inactive", none)
    | Except.ok rsp =>
      if rsp.StatusCode ≠ 400 then ("inactive", none) else ("active", none)

/-! ## getAPIKeyStatus (lines 176-206) -/

/-- The goroutines of line 183 run to completion in an order that the program
does not control.  The goroutines still running are kept as a list of
(position in keyTypes, keyType); the head of the schedule, reduced modulo
their number, selects the one that finishes next (an exhausted schedule
selects the first).  The selected goroutine runs lines 184-193: it calls the
capability check, and sends its result on the channel unless the check
returned an error.  The buffered channel is the list of the values sent so
far, oldest first.  The fuel is the value of the WaitGroup counter; the
result is the content of the channel when wg.Wait returns, together with the
number of goroutine completions that wg.Wait had to await. -/
def runGoroutines (check : Nat → String → String → String × Option GoError) (key : String) :
    Nat → List Nat → List (Nat × String) → List TypeStatus → List TypeStatus × Nat
  | 0, _, _, channel => (channel, 0)
  | _ + 1, _, [], channel => (channel, 0)
  | wg + 1, sched, g :: gs, channel =>
    let k := sched.headD 0 % (gs.length + 1)
    let cur := (g :: gs).getD k g
    let channel1 :=
      match check cur.1 key cur.2 with
      | (_, some _) => channel
      | (status, none) => channel ++ [{ Type_ := cur.2, Status := status }]
    let r := runGoroutines check key wg sched.tail ((g :: gs).eraseIdx k) channel1
    (r.1, r.2 + 1)

/-- The body of getAPIKeyStatus (lines 176-206) over an arbitrary capability
check, whose first argument is the position of the calling goroutine in
keyTypes: one goroutine per entry of keyTypes, wg.Wait, and the channel
drained into the result slice.  The second component is the number of
goroutine completions that wg.Wait awaited. -/
def getAPIKeyStatusRun (check : Nat → String → String → String × Option GoError)
    (sched : List Nat) (key : String) (keyTypes : List String) :
    (List TypeStatus × Option GoError) × Nat :=
  let r := runGoroutines check key keyTypes.length sched keyTypes.enum []
  ((r.1, none), r.2)

/-- The Go result ([]TypeStatus, error) of getAPIKeyStatus over an arbitrary
capability check. -/
def getAPIKeyStatusWith (check : Nat → String → String → String × Option GoError)
    (sched : List Nat) (key : String) (keyTypes : List String) :
    List TypeStatus × Option GoError :=
  (getAPIKeyStatusRun check sched key keyTypes).1

/-- The function getAPIKeyStatus of lines 176-206: the capability check is
checkTypeStatus, and the goroutine at position i sees the network as net i. -/
def getAPIKeyStatus (net : Nat → Net) (sched : List Nat) (key : String)
    (keyTypes : List String) : List TypeStatus × Option GoError :=
  getAPIKeyStatusWith (fun i k t => checkTypeStatus (net i) k t) sched key keyTypes

/-! ## healthCheck (lines 137-174) -/

/-- The loop of lines 141-153 over an arbitrary per-credential probe, whose
first argument is the loop index of the call. -/
def healthCheckLoop (probe : Nat → String → List String → List TypeStatus × Option GoError) :
    Nat → List APIKey → List APIKeyStatus → List APIKeyStatus
  | _, [], apiKeysStatus => apiKeysStatus
  | i, apiKey :: rest, apiKeysStatus =>
    match probe i apiKey.Key apiKey.Type_ with
    | (_, some _) => healthCheckLoop probe (i + 1) rest apiKeysStatus
    | (keyStatus, none) =>
      healthCheckLoop probe (i + 1) rest
        (apiKeysStatus.set i
          { Index := i, Key := apiKey.Key, Usage := 0, Limit := 0,
            Remark := apiKey.Remark, TypeStatus := keyStatus })

/-- The value of the variable status at line 165: the slice of line 139
filled by the loop, and the system status of lines 156-159. -/
def healthCheckStatus (probe : Nat → String → List String → List TypeStatus × Option GoError)
    (config : Config) : Status :=
  { APIStatus :=
      healthCheckLoop probe 0 config.APIKeys
        (List.replicate config.APIKeys.length APIKeyStatus.zero),
    SysStatus := { ExecutorName := config.ExecutorName, ExecutorAddr := config.ListenAddr } }

/-- The body of healthCheck over an arbitrary probe and an arbitrary
json.Marshal. -/
def healthCheckWith (marshal : Status → Except GoError Bytes)
    (probe : Nat → String → List String → List TypeStatus × Option GoError)
    (config : Config) : Except GoError Bytes :=
  marshal (healthCheckStatus probe config)

/-- The function healthCheck of lines 137-174: the probe is getAPIKeyStatus;
the call for the credential at position i sees the network as net i and its
goroutines finish in the order given by sched i. -/
def healthCheck (marshal : Status → Except GoError Bytes) (net : Nat → Nat → Net)
    (sched : Nat → List Nat) (config : Config) : Except GoError Bytes :=
  healthCheckWith marshal (fun i key keyTypes => getAPIKeyStatus (net i) (sched i) key keyTypes)
    config

/-! ## http.ResponseWriter -/

/-- What reaches the client connection after the header block: a chunk of
body bytes, or a flush of what was buffered. -/
inductive WireEvent where
  | data (b : Bytes) : WireEvent
  | flush : WireEvent
deriving DecidableEq, Repr

/-- The state of an http.ResponseWriter: the live map returned by Header(),
the status code committed by the first WriteHeader together with the copy of
the header map taken at that moment (changes made to the map afterwards are
not sent), what has gone to the client since, the results that the upcoming
calls of Write will return (an exhausted script accepts every write), and
whether a call on the writer has panicked, which ends the handler and makes
the server drop the connection. -/
structure ResponseWriter where
  header : Header
  status : Option Int
  sentHeader : Header
  wire : List WireEvent
  writeErrs : List (Option GoError)
  panicked : Bool
deriving DecidableEq, Repr

namespace ResponseWriter

/-- The writer that the server hands to a handler. -/
def new (writeErrs : List (Option GoError)) : ResponseWriter :=
  { header := [], status := none, sentHeader := [], wire := [], writeErrs := writeErrs,
    panicked := false }

/-- The test of net/http's checkWriteHeaderCode: a status code must have three
digits. -/
def checkWriteHeaderCode (code : Int) : Bool :=
  decide (100 ≤ code) && decide (code ≤ 999)

/-- Whether the call WriteHeader(code) panics: the code is checked only while
no status has been committed. -/
def WriteHeaderPanics (w : ResponseWriter) (code : Int) : Bool :=
  match w.status with
  | some _ => false
  | none => !checkWriteHeaderCode code

/-- The method WriteHeader: a call after the status was committed changes
nothing; otherwise a code that does not have three digits makes the call
panic, and any other code is committed together with the header map as it is
then.  (The informational codes 100 to 199 other than 101 are not told apart
from final codes: client.Do never returns a response with such a code.) -/
def WriteHeader (w : ResponseWriter) (code : Int) : ResponseWriter :=
  match w.status with
  | some _ => w
  | none =>
    if checkWriteHeaderCode code then { w with status := some code, sentHeader := w.header }
    else { w with panicked := true }

/-- The method Write: commits status 200 if no status was written yet, and
delivers the bytes unless the connection reports an error. -/
def Write (w : ResponseWriter) (b : Bytes) : ResponseWriter × Option GoError :=
  let w1 := w.WriteHeader 200
  match w1.writeErrs with
  | some err :: rest => ({ w1 with writeErrs := rest }, some err)
  | none :: rest => ({ w1 with writeErrs := rest, wire := w1.wire ++ [WireEvent.data b] }, none)
  | [] => ({ w1 with wire := w1.wire ++ [WireEvent.data b] }, none)

/-- The method Flush of http.Flusher. -/
def Flush (w : ResponseWriter) : ResponseWriter :=
  let w1 := w.WriteHeader 200
  { w1 with wire := w1.wire ++ [WireEvent.flush] }

/-- The assignment w.Header().Set(k, v). -/
def SetHeader (w : ResponseWriter) (k v : String) : ResponseWriter :=
  { w with header := w.header.Set k v }

/-- The assignment w.Header().Add(k, v). -/
def AddHeader (w : ResponseWriter) (k v : String) : ResponseWriter :=
  { w with header := w.header.Add k v }

/-- The body bytes that the client has received. -/
def body (w : ResponseWriter) : Bytes :=
  w.wire.flatMap (fun e => match e with
    | WireEvent.data b => b
    | WireEvent.flush => [])

end ResponseWriter

/-- The function http.Error: two headers are set, the status code is written,
and the text is printed to the writer followed by a newline (unless
WriteHeader panicked). -/
def Error (w : ResponseWriter) (error : String) (code : Int) : ResponseWriter :=
  let w := w.SetHeader "Content-Type" "text/plain; charset=utf-8"
  let w := w.SetHeader "X-Content-Type-Options" "nosniff"
  if w.WriteHeaderPanics code then w.WriteHeader code
  else ((w.WriteHeader code).Write (bytesOf error ++ [10])).1

/-! ## HandleProxy (lines 236-291) -/

/-- The inbound request as HandleProxy reads it: the method, r.URL.Path, the
header map, and the bytes that io.ReadAll(r.Body) returns at line 240 (the
error of that call is discarded). -/
structure Request where
  Method : String
  Path : String
  Header : Header
  Body : Bytes
deriving DecidableEq, Repr

/-- The outbound request of lines 242-251. -/
def outboundRequest (net : Net) (r : Request) : Except GoError OutRequest :=
  match NewRequest net r.Method (baseUrl ++ r.Path) r.Body with
  | Except.error err => Except.error err
  | Except.ok req =>
    let req := { req with Header := r.Header }
    let req := { req with Header := req.Header.Set "Content-Type" "application/json" }
    let req := { req with Close := false }
    let req := { req with Header := req.Header.Set "Connection" "keep-alive" }
    Except.ok { req with Header := req.Header.Set "Keep-Alive" "timeout=360" }

/-- The inner loop of lines 260-262. -/
def addValues (name : String) : List String → ResponseWriter → ResponseWriter
  | [], w => w
  | value :: values, w => addValues name values (w.AddHeader name value)

/-- The loop of lines 259-263 over the entries of rsp.Header. -/
def copyHeader : Header → ResponseWriter → ResponseWriter
  | [], w => w
  | (name, values) :: rest, w => copyHeader rest (addValues name values w)

/-- The five assignments of lines 265-269. -/
def setStreamHeaders (w : ResponseWriter) : ResponseWriter :=
  let w := w.SetHeader "Content-Type" "text/event-stream"
  let w := w.SetHeader "Cache-Control" "no-cache"
  let w := w.SetHeader "Transfer-Encoding" "chunked"
  let w := w.SetHeader "Connection" "keep-alive"
  w.SetHeader "access-control-allow-origin" "*"

/-- The loop of lines 271-283 over the results that rsp.Body.Read returns;
the second component is the value of err when the loop is left. -/
def relayLoop : List ReadResult → ResponseWriter → ResponseWriter × GoError
  | [], w => (w, GoError.EOF)
  | rd :: rest, w =>
    match rd.err with
    | some err => (w, err)
    | none =>
      match w.Write rd.data with
      | (w1, some err) => (w1, err)
      | (w1, none) => relayLoop rest w1.Flush

/-- The state of the writer when the body loop starts (lines 259-269). -/
def beforeLoop (rsp : Response) (w : ResponseWriter) : ResponseWriter :=
  setStreamHeaders ((copyHeader rsp.Header w).WriteHeader rsp.StatusCode)

/-- The function HandleProxy of lines 236-291, as the final state of the
response writer.  When WriteHeader panics at line 264 the handler ends
there. -/
def HandleProxy (net : Net) (w : ResponseWriter) (r : Request) : ResponseWriter :=
  match outboundRequest net r with
  | Except.error err => Error w err.Error 500
  | Except.ok req =>
    match net.Do req with
    | Except.error err => Error w err.Error 500
    | Except.ok rsp =>
      if (copyHeader rsp.Header w).WriteHeaderPanics rsp.StatusCode then
        (copyHeader rsp.Header w).WriteHeader rsp.StatusCode
      else
        match relayLoop rsp.Body (beforeLoop rsp w) with
        | (w1, GoError.EOF) => w1
        | (w1, GoError.other text) => Error w1 text 500

/-! ## Lemmas on the report loop -/

theorem healthCheckLoop_length
    (probe : Nat → String → List String → List TypeStatus × Option GoError) :
    ∀ (keys : List APIKey) (i : Nat) (acc : List APIKeyStatus),
      (healthCheckLoop probe i keys acc).length = acc.length := by
  intro keys
  induction keys with
  | nil => intro i acc; rfl
  | cons apiKey rest ih =>
    intro i acc
    unfold healthCheckLoop
    split
    · exact ih _ _
    · rw [ih, List.length_set]

theorem healthCheckLoop_getElem?_lt
    (probe : Nat → String → List String → List TypeStatus × Option GoError) :
    ∀ (keys : List APIKey) (i : Nat) (acc : List APIKeyStatus) (j : Nat), j < i →
      (healthCheckLoop probe i keys acc)[j]? = acc[j]? := by
  intro keys
  induction keys with
  | nil => intro i acc j _; rfl
  | cons apiKey rest ih =>
    intro i acc j hj
    unfold healthCheckLoop
    split
    · exact ih _ _ _ (by omega)
    · rw [ih _ _ _ (by omega), List.getElem?_set_ne (by omega)]

theorem healthCheckLoop_getElem?
    (probe : Nat → String → List String → List TypeStatus × Option GoError) :
    ∀ (keys : List APIKey) (i : Nat) (acc : List APIKeyStatus) (k : Nat) (apiKey : APIKey),
      keys[k]? = some apiKey → i + k < acc.length →
      (healthCheckLoop probe i keys acc)[i + k]? =
        match (probe (i + k) apiKey.Key apiKey.Type_).2 with
        | some _ => acc[i + k]?
        | none =>
          some { Index := ((i + k : Nat) : Int), Key := apiKey.Key, Usage := 0, Limit := 0,
                 Remark := apiKey.Remark,
                 TypeStatus := (probe (i + k) apiKey.Key apiKey.Type_).1 } := by
  intro keys
  induction keys with
  | nil => intro i acc k apiKey h; simp at h
  | cons a rest ih =>
    intro i acc k apiKey h hlt
    cases k with
    | zero =>
      simp only [List.getElem?_cons_zero, Option.some.injEq] at h
      subst h
      simp only [Nat.add_zero]
      unfold healthCheckLoop
      rcases hp : probe i a.Key a.Type_ with ⟨ks, e⟩
      cases e with
      | some err =>
        simp only
        exact healthCheckLoop_getElem?_lt probe rest (i + 1) acc i (by omega)
      | none =>
        simp only
        rw [healthCheckLoop_getElem?_lt probe rest (i + 1) _ i (by omega)]
        exact List.getElem?_set_self (by omega)
    | succ k =>
      simp only [List.getElem?_cons_succ] at h
      have e : i + (k + 1) = (i + 1) + k := by omega
      rw [e]
      unfold healthCheckLoop
      rcases hp : probe i a.Key a.Type_ with ⟨ks, e1⟩
      cases e1 with
      | some err =>
        simp only
        exact ih (i + 1) acc k apiKey h (by omega)
      | none =>
        simp only
        rw [ih (i + 1) _ k apiKey h (by rw [List.length_set]; omega)]
        rw [List.getElem?_set_ne (by omega)]

/-! ## Lemmas on the goroutine fan-out -/

theorem length_eraseIdx_pick {α : Type} (g : α) (gs : List α) (n : Nat) :
    ((g :: gs).eraseIdx (n % (gs.length + 1))).length = gs.length := by
  have hk : n % (gs.length + 1) < (g :: gs).length := by
    simp only [List.length_cons]
    exact Nat.mod_lt _ (Nat.succ_pos _)
  rw [List.length_eraseIdx, if_pos hk]
  simp

theorem perm_getD_eraseIdx {α : Type} :
    ∀ (l : List α) (k : Nat) (d : α), k < l.length →
      l.Perm (l.getD k d :: l.eraseIdx k) := by
  intro l
  induction l with
  | nil => intro k d h; simp at h
  | cons a as ih =>
    intro k d h
    cases k with
    | zero => simp
    | succ k =>
      have h1 : k < as.length := by simpa using h
      have hp := ih k d h1
      simp only [List.getD_cons_succ, List.eraseIdx_cons_succ]
      exact (List.Perm.cons a hp).trans (List.Perm.swap _ _ _)

theorem runGoroutines_length (check : Nat → String → String → String × Option GoError)
    (key : String) :
    ∀ (wg : Nat) (sched : List Nat) (running : List (Nat × String)) (channel : List TypeStatus),
      (runGoroutines check key wg sched running channel).1.length ≤
        channel.length + running.length := by
  intro wg
  induction wg with
  | zero => intro sched running channel; simp [runGoroutines]
  | succ wg ih =>
    intro sched running channel
    cases running with
    | nil => simp [runGoroutines]
    | cons g gs =>
      simp only [runGoroutines]
      refine le_trans (ih _ _ _) ?_
      rw [length_eraseIdx_pick]
      split
      · simp only [List.length_cons]; omega
      · simp only [List.length_append, List.length_cons, List.length_nil]; omega

theorem runGoroutines_awaited (check : Nat → String → String → String × Option GoError)
    (key : String) :
    ∀ (wg : Nat) (sched : List Nat) (running : List (Nat × String)) (channel : List TypeStatus),
      running.length ≤ wg →
      (runGoroutines check key wg sched running channel).2 = running.length := by
  intro wg
  induction wg with
  | zero =>
    intro sched running channel h
    have : running = [] := List.length_eq_zero.mp (by omega)
    subst this
    simp [runGoroutines]
  | succ wg ih =>
    intro sched running channel h
    cases running with
    | nil => simp [runGoroutines]
    | cons g gs =>
      simp only [runGoroutines]
      rw [ih _ _ _ (by rw [length_eraseIdx_pick]; simpa using h), length_eraseIdx_pick]
      simp

theorem runGoroutines_perm (check : Nat → String → String → String × Option GoError)
    (key : String) :
    ∀ (wg : Nat) (sched : List Nat) (running : List (Nat × String)) (channel : List TypeStatus),
      running.length ≤ wg →
      (∀ g ∈ running, (check g.1 key g.2).2 = none) →
      (runGoroutines check key wg sched running channel).1.Perm
        (channel ++ running.map
          (fun g => ({ Type_ := g.2, Status := (check g.1 key g.2).1 } : TypeStatus))) := by
  intro wg
  induction wg with
  | zero =>
    intro sched running channel h _
    have : running = [] := List.length_eq_zero.mp (by omega)
    subst this
    simp [runGoroutines]
  | succ wg ih =>
    intro sched running channel h hok
    cases running with
    | nil => simp [runGoroutines]
    | cons g gs =>
      have hk : sched.headD 0 % (gs.length + 1) < (g :: gs).length := by
        simp only [List.length_cons]
        exact Nat.mod_lt _ (Nat.succ_pos _)
      have hperm := perm_getD_eraseIdx (g :: gs) (sched.headD 0 % (gs.length + 1)) g hk
      have hmem : (g :: gs).getD (sched.headD 0 % (gs.length + 1)) g ∈ g :: gs :=
        hperm.symm.subset (List.mem_cons_self _ _)
      have hrest : ∀ x ∈ (g :: gs).eraseIdx (sched.headD 0 % (gs.length + 1)),
          (check x.1 key x.2).2 = none := fun x hx =>
        hok x (hperm.symm.subset (List.mem_cons_of_mem _ hx))
      have hcur := hok _ hmem
      simp only [runGoroutines]
      refine (ih _ _ _ (by rw [length_eraseIdx_pick]; simpa using h) hrest).trans ?_
      rcases hc : check ((g :: gs).getD (sched.headD 0 % (gs.length + 1)) g).1 key
          ((g :: gs).getD (sched.headD 0 % (gs.length + 1)) g).2 with ⟨status, e⟩
      rw [hc] at hcur
      simp only at hcur
      subst hcur
      simp only [List.append_assoc, List.singleton_append]
      refine List.Perm.append_left channel ?_
      have hm := (hperm.map
        (fun g => ({ Type_ := g.2, Status := (check g.1 key g.2).1 } : TypeStatus))).symm
      simp only [List.map_cons, hc] at hm
      exact hm

/-- Every order of completion is produced by some schedule: for each
arrangement of the running goroutines there is a schedule under which the
values reach the channel in that arrangement. -/
theorem runGoroutines_any_order (check : Nat → String → String → String × Option GoError)
    (key : String) (hok : ∀ i t, (check i key t).2 = none) :
    ∀ (order running : List (Nat × String)), order.Perm running →
      ∀ channel : List TypeStatus, ∃ sched : List Nat,
        (runGoroutines check key running.length sched running channel).1 =
          channel ++ order.map
            (fun g => ({ Type_ := g.2, Status := (check g.1 key g.2).1 } : TypeStatus)) := by
  intro order
  induction order with
  | nil =>
    intro running hp channel
    have : running = [] := hp.symm.eq_nil
    subst this
    exact ⟨[], by simp [runGoroutines]⟩
  | cons x xs ih =>
    intro running hp channel
    have hx : x ∈ running := hp.subset (List.mem_cons_self _ _)
    cases running with
    | nil => simp at hx
    | cons g gs =>
      obtain ⟨k, hklt, hkx⟩ := List.getElem_of_mem hx
      have hgetD : (g :: gs).getD k g = x := by
        rw [List.getD_eq_getElem _ _ hklt]; exact hkx
      have hmod : k % (gs.length + 1) = k := Nat.mod_eq_of_lt (by simpa using hklt)
      have hp1 := perm_getD_eraseIdx (g :: gs) k g hklt
      rw [hgetD] at hp1
      have hp2 : xs.Perm ((g :: gs).eraseIdx k) := (List.Perm.cons_inv (hp.trans hp1))
      have hlen : ((g :: gs).eraseIdx k).length = gs.length := by
        have := length_eraseIdx_pick g gs k
        rwa [hmod] at this
      rcases hc : check x.1 key x.2 with ⟨status, e⟩
      have he : e = none := by have := hok x.1 x.2; rw [hc] at this; exact this
      subst he
      obtain ⟨sched, hs⟩ := ih ((g :: gs).eraseIdx k) hp2
        (channel ++ [{ Type_ := x.2, Status := status }])
      refine ⟨k :: sched, ?_⟩
      simp only [List.length_cons, runGoroutines, List.headD_cons, List.tail_cons, hmod, hgetD, hc]
      rw [hlen] at hs
      rw [hs]
      simp [hc]

/-! ## Lemmas on header maps and the response writer -/

theorem Header.lookup_erase_ne (h : Header) (k k1 : String) (hne : k1 ≠ k) :
    (h.erase k).lookup k1 = h.lookup k1 := by
  induction h with
  | nil => rfl
  | cons kv rest ih =>
    rcases kv with ⟨a, vs⟩
    by_cases ha : a = k
    · subst ha
      have hf : Header.erase ((a, vs) :: rest) a = Header.erase rest a := by
        simp [Header.erase]
      rw [hf, ih]
      simp only [Header.lookup]
      rw [if_neg (fun h1 => hne h1.symm)]
    · have hf : Header.erase ((a, vs) :: rest) k = (a, vs) :: Header.erase rest k := by
        simp [Header.erase, ha]
      rw [hf]
      simp only [Header.lookup]
      rw [ih]

theorem Header.lookup_Set_self (h : Header) (k v : String) :
    (h.Set k v).lookup (CanonicalMIMEHeaderKey k) = some [v] := by
  simp [Header.Set, Header.lookup]

theorem Header.lookup_Set_ne (h : Header) (k v k1 : String)
    (hne : k1 ≠ CanonicalMIMEHeaderKey k) : (h.Set k v).lookup k1 = h.lookup k1 := by
  simp only [Header.Set, Header.lookup]
  rw [if_neg (fun h1 => hne h1.symm)]
  exact Header.lookup_erase_ne h _ _ hne

theorem ResponseWriter.Write_committed (w : ResponseWriter) (b : Bytes) (c : Int)
    (hs : w.status = some c) :
    (w.Write b).1.status = some c ∧ (w.Write b).1.sentHeader = w.sentHeader ∧
      (∀ err, (w.Write b).2 = some err → (w.Write b).1.wire = w.wire) ∧
      ((w.Write b).2 = none → (w.Write b).1.wire = w.wire ++ [WireEvent.data b]) := by
  have hw : w.WriteHeader 200 = w := by simp [ResponseWriter.WriteHeader, hs]
  unfold ResponseWriter.Write
  simp only [hw]
  split <;> simp [hs]

theorem ResponseWriter.Flush_committed (w : ResponseWriter) (c : Int) (hs : w.status = some c) :
    w.Flush.status = some c ∧ w.Flush.sentHeader = w.sentHeader ∧
      w.Flush.wire = w.wire ++ [WireEvent.flush] := by
  have hw : w.WriteHeader 200 = w := by simp [ResponseWriter.WriteHeader, hs]
  unfold ResponseWriter.Flush
  simp only [hw]
  simp [hs]

theorem relayLoop_committed :
    ∀ (body : List ReadResult) (w : ResponseWriter) (c : Int), w.status = some c →
      (relayLoop body w).1.status = some c ∧ (relayLoop body w).1.sentHeader = w.sentHeader := by
  intro body
  induction body with
  | nil => intro w c hs; exact ⟨hs, rfl⟩
  | cons rd rest ih =>
    intro w c hs
    unfold relayLoop
    cases hrd : rd.err with
    | some err => exact ⟨hs, rfl⟩
    | none =>
      simp only
      have hw := ResponseWriter.Write_committed w rd.data c hs
      rcases hwr : w.Write rd.data with ⟨w1, e⟩
      rw [hwr] at hw
      cases e with
      | some err => exact ⟨hw.1, hw.2.1⟩
      | none =>
        simp only
        have hf := ResponseWriter.Flush_committed w1 c hw.1
        have := ih w1.Flush c hf.1
        exact ⟨this.1, by rw [this.2, hf.2.1, hw.2.1]⟩

theorem setStreamHeaders_committed (w : ResponseWriter) :
    (setStreamHeaders w).status = w.status ∧ (setStreamHeaders w).sentHeader = w.sentHeader ∧
      (setStreamHeaders w).wire = w.wire ∧ (setStreamHeaders w).writeErrs = w.writeErrs := by
  simp [setStreamHeaders, ResponseWriter.SetHeader]

theorem addValues_frame (name : String) :
    ∀ (values : List String) (w : ResponseWriter),
      (addValues name values w).status = w.status ∧
        (addValues name values w).sentHeader = w.sentHeader ∧
        (addValues name values w).wire = w.wire ∧
        (addValues name values w).writeErrs = w.writeErrs := by
  intro values
  induction values with
  | nil => intro w; simp [addValues]
  | cons v vs ih =>
    intro w
    simp only [addValues]
    have := ih (w.AddHeader name v)
    simpa [ResponseWriter.AddHeader] using this

theorem copyHeader_frame :
    ∀ (h : Header) (w : ResponseWriter),
      (copyHeader h w).status = w.status ∧ (copyHeader h w).sentHeader = w.sentHeader ∧
        (copyHeader h w).wire = w.wire ∧ (copyHeader h w).writeErrs = w.writeErrs := by
  intro h
  induction h with
  | nil => intro w; simp [copyHeader]
  | cons kv rest ih =>
    intro w
    rcases kv with ⟨name, values⟩
    simp only [copyHeader]
    have h1 := ih (addValues name values w)
    have h2 := addValues_frame name values w
    exact ⟨h1.1.trans h2.1, h1.2.1.trans h2.2.1, h1.2.2.1.trans h2.2.2.1,
      h1.2.2.2.trans h2.2.2.2⟩

theorem beforeLoop_new (rsp : Response) (ws : List (Option GoError))
    (hcode : ResponseWriter.checkWriteHeaderCode rsp.StatusCode = true) :
    (beforeLoop rsp (ResponseWriter.new ws)).status = some rsp.StatusCode ∧
      (beforeLoop rsp (ResponseWriter.new ws)).sentHeader =
        (copyHeader rsp.Header (ResponseWriter.new ws)).header ∧
      (beforeLoop rsp (ResponseWriter.new ws)).wire = [] := by
  have hc := copyHeader_frame rsp.Header (ResponseWriter.new ws)
  have hs : (copyHeader rsp.Header (ResponseWriter.new ws)).status = none := hc.1
  have hwire : (copyHeader rsp.Header (ResponseWriter.new ws)).wire = [] := hc.2.2.1
  unfold beforeLoop
  have h1 := setStreamHeaders_committed
    ((copyHeader rsp.Header (ResponseWriter.new ws)).WriteHeader rsp.StatusCode)
  rw [h1.1, h1.2.1, h1.2.2.1]
  simp [ResponseWriter.WriteHeader, hs, hwire, hcode]

/-- The body loop on a script whose reads return no error up to a last read
that returns an error, with a client that accepts every write: each read of
the prefix is written and flushed in turn, and the bytes that the last read
returned together with its error are not written. -/
theorem relayLoop_wire :
    ∀ (reads : List ReadResult) (d : Bytes) (e : GoError) (w : ResponseWriter) (c : Int),
      (∀ rd ∈ reads, rd.err = none) → w.writeErrs = [] → w.status = some c →
      (relayLoop (reads ++ [{ data := d, err := some e }]) w).2 = e ∧
      (relayLoop (reads ++ [{ data := d, err := some e }]) w).1.wire =
        w.wire ++ reads.flatMap (fun rd => [WireEvent.data rd.data, WireEvent.flush]) := by
  intro reads
  induction reads with
  | nil => intro d e w c _ _ _; simp [relayLoop]
  | cons rd rest ih =>
    intro d e w c hr hw hs
    have hrd : rd.err = none := hr rd (List.mem_cons_self _ _)
    have hwh : w.WriteHeader 200 = w := by simp [ResponseWriter.WriteHeader, hs]
    have hwrite : w.Write rd.data =
        ({ w with wire := w.wire ++ [WireEvent.data rd.data] }, none) := by
      unfold ResponseWriter.Write
      simp only [hwh, hw]
    have hflush : ({ w with wire := w.wire ++ [WireEvent.data rd.data] } : ResponseWriter).Flush =
        { w with wire := w.wire ++ [WireEvent.data rd.data] ++ [WireEvent.flush] } := by
      simp [ResponseWriter.Flush, ResponseWriter.WriteHeader, hs]
    have hstep : relayLoop ((rd :: rest) ++ [{ data := d, err := some e }]) w =
        relayLoop (rest ++ [{ data := d, err := some e }])
          { w with wire := w.wire ++ [WireEvent.data rd.data] ++ [WireEvent.flush] } := by
      simp only [List.cons_append, relayLoop, hrd, hwrite, hflush]
      rfl
    rw [hstep]
    have := ih d e { w with wire := w.wire ++ [WireEvent.data rd.data] ++ [WireEvent.flush] } c
      (fun x hx => hr x (List.mem_cons_of_mem _ hx)) hw hs
    simpa using this

theorem canonical_ContentType : CanonicalMIMEHeaderKey "Content-Type" = "Content-Type" := by
  decide

theorem canonical_Connection : CanonicalMIMEHeaderKey "Connection" = "Connection" := by
  decide

theorem canonical_KeepAlive : CanonicalMIMEHeaderKey "Keep-Alive" = "Keep-Alive" := by
  decide

theorem canonical_NoSniff :
    CanonicalMIMEHeaderKey "X-Content-Type-Options" = "X-Content-Type-Options" := by
  decide

/-- The function http.Error on a writer whose status is already committed:
the status and the headers sent stay as they are, and the text is written to
the body if the client accepts the write. -/
theorem Error_committed (w : ResponseWriter) (text : String) (code c : Int)
    (hs : w.status = some c) :
    (Error w text code).status = some c ∧ (Error w text code).sentHeader = w.sentHeader ∧
      (Error w text code).wire = w.wire ++
        (match w.writeErrs with
          | some _ :: _ => []
          | _ => [WireEvent.data (bytesOf text ++ [10])]) := by
  unfold Error
  simp only [ResponseWriter.SetHeader, ResponseWriter.WriteHeaderPanics,
    ResponseWriter.WriteHeader, hs, ResponseWriter.Write]
  rcases hw : w.writeErrs with _ | ⟨e, rest⟩
  · simp
  · cases e <;> simp

/-- The function http.Error on the writer of a fresh request: status and
headers are those of the error reply. -/
theorem Error_new (ws : List (Option GoError)) (text : String) (code : Int)
    (hcode : ResponseWriter.checkWriteHeaderCode code = true) :
    (Error (ResponseWriter.new ws) text code).status = some code ∧
      (Error (ResponseWriter.new ws) text code).sentHeader =
        [("X-Content-Type-Options", ["nosniff"]),
         ("Content-Type", ["text/plain; charset=utf-8"])] ∧
      (Error (ResponseWriter.new ws) text code).wire =
        (match ws with
          | some _ :: _ => []
          | _ => [WireEvent.data (bytesOf text ++ [10])]) := by
  unfold Error
  simp only [ResponseWriter.SetHeader, ResponseWriter.WriteHeaderPanics,
    ResponseWriter.WriteHeader, ResponseWriter.new, hcode,
    ResponseWriter.Write, Header.Set, Header.erase, canonical_ContentType, canonical_NoSniff]
  rcases ws with _ | ⟨e, rest⟩
  · simp
  · cases e <;> simp

/-! ## The claims -/

/-- C1: checkTypeStatus classifies by the outcome of its single upstream call.
Whenever the probe request is built and sent, a transport failure (network
error or timeout) gives "inactive" with no error, and a response with status
code s gives "active" exactly when s = 400 and "inactive" for every other s,
again with no error. -/
theorem checkTypeStatus_classifies (net : Net) (key keyType : String) (req : OutRequest)
    (hreq : probeRequest net key keyType = Except.ok req) :
    (∀ err, net.Do req = Except.error err →
      checkTypeStatus net key keyType = ("inactive", none)) ∧
    (∀ rsp, net.Do req = Except.ok rsp →
      checkTypeStatus net key keyType =
        (if rsp.StatusCode = 400 then "active" else "inactive", none)) := by
  constructor
  · intro err h
    simp [checkTypeStatus, hreq, h]
  · intro rsp h
    by_cases hs : rsp.StatusCode = 400 <;> simp [checkTypeStatus, hreq, h, hs]

/-- C1 at a network whose upstream answers 400: the capability is active. -/
theorem checkTypeStatus_classifies_witness :
    checkTypeStatus
      { requestError := fun _ _ => none,
        Do := fun _ => Except.ok { StatusCode := 400, Header := [], Body := [] } }
      "sk-1" "x" = ("active", none) :=
  (checkTypeStatus_classifies
    { requestError := fun _ _ => none,
      Do := fun _ => Except.ok { StatusCode := 400, Header := [], Body := [] } }
    "sk-1" "x" _ rfl).2 { StatusCode := 400, Header := [], Body := [] } rfl

/-- C2: for every configuration and every outcome of the per-credential
probes, the api_status slice built by healthCheck has as many entries as there
are configured credentials; the credential at position i is represented at
position i, by an entry carrying its key and remark (and the probe result)
when its probe succeeded and by the zero-valued entry when its probe returned
an error. -/
theorem healthCheck_one_entry_per_credential
    (probe : Nat → String → List String → List TypeStatus × Option GoError)
    (config : Config) :
    (healthCheckStatus probe config).APIStatus.length = config.APIKeys.length ∧
    ∀ (i : Nat) (apiKey : APIKey), config.APIKeys[i]? = some apiKey →
      (∀ keyStatus, probe i apiKey.Key apiKey.Type_ = (keyStatus, none) →
        (healthCheckStatus probe config).APIStatus[i]? =
          some { Index := (i : Int), Key := apiKey.Key, Usage := 0, Limit := 0,
                 Remark := apiKey.Remark, TypeStatus := keyStatus }) ∧
      (∀ keyStatus err, probe i apiKey.Key apiKey.Type_ = (keyStatus, some err) →
        (healthCheckStatus probe config).APIStatus[i]? = some APIKeyStatus.zero) := by
  constructor
  · simp [healthCheckStatus, healthCheckLoop_length]
  · intro i apiKey hi
    have hlt : i < config.APIKeys.length := (List.getElem?_eq_some_iff.mp hi).1
    have h := healthCheckLoop_getElem? probe config.APIKeys 0
      (List.replicate config.APIKeys.length APIKeyStatus.zero) i apiKey hi
      (by simpa using hlt)
    simp only [Nat.zero_add] at h
    constructor
    · intro keyStatus hp
      simp only [healthCheckStatus]
      rw [h, hp]
    · intro keyStatus err hp
      simp only [healthCheckStatus]
      rw [h, hp]
      simp [List.getElem?_replicate, hlt]

/-- C2 at a configuration of two credentials whose first probe fails: the
first entry is the zero value and the second credential stays at position 1. -/
theorem healthCheck_one_entry_per_credential_witness :
    (healthCheckStatus
      (fun i _ _ => if i = 0 then ([], some (GoError.other "down")) else ([], none))
      { APIKeys := [{ Index := 0, Key := "a", Type_ := [], Remark := "ra" },
                    { Index := 1, Key := "b", Type_ := [], Remark := "rb" }],
        ExecutorName := "e", SchedulerCenter := "", ReportEnable := false,
        ReportDuration := 0, ListenAddr := ":80" }).APIStatus[1]? =
      some { Index := 1, Key := "b", Usage := 0, Limit := 0, Remark := "rb", TypeStatus := [] } :=
  ((healthCheck_one_entry_per_credential
    (fun i _ _ => if i = 0 then ([], some (GoError.other "down")) else ([], none))
    { APIKeys := [{ Index := 0, Key := "a", Type_ := [], Remark := "ra" },
                  { Index := 1, Key := "b", Type_ := [], Remark := "rb" }],
      ExecutorName := "e", SchedulerCenter := "", ReportEnable := false,
      ReportDuration := 0, ListenAddr := ":80" }).2 1
    { Index := 1, Key := "b", Type_ := [], Remark := "rb" } rfl).1 [] rfl

/-- C3: getAPIKeyStatus never fails its caller.  For every key, every
capability list, every order of completion and every outcome of the
capability checks, the returned error is nil and the result has at most as
many entries as the capability list; for the empty capability list the result
is empty and wg.Wait awaits no goroutine. -/
theorem getAPIKeyStatus_never_fails
    (check : Nat → String → String → String × Option GoError)
    (sched : List Nat) (key : String) (keyTypes : List String) :
    (getAPIKeyStatusWith check sched key keyTypes).2 = none ∧
    (getAPIKeyStatusWith check sched key keyTypes).1.length ≤ keyTypes.length ∧
    getAPIKeyStatusRun check sched key [] = (([], none), 0) := by
  refine ⟨rfl, ?_, ?_⟩
  · have h := runGoroutines_length check key keyTypes.length sched keyTypes.enum []
    simpa [getAPIKeyStatusWith, getAPIKeyStatusRun, List.enum_length] using h
  · simp [getAPIKeyStatusRun, runGoroutines]

/-- C4, evaluated where it fails: the upstream body has the single byte 65 and
its only read returns that byte together with io.EOF, as the io.Reader
contract allows.  The loop leaves at line 276 before the write of line 278, so
the client receives status 200 and an empty body although one byte was read. -/
theorem HandleProxy_drops_bytes_read_with_error :
    (HandleProxy
      { requestError := fun _ _ => none,
        Do := fun _ => Except.ok
          { StatusCode := 200, Header := [],
            Body := [{ data := [65], err := some GoError.EOF }] } }
      (ResponseWriter.new [])
      { Method := "POST", Path := "/v1/chat/completions", Header := [], Body := [] }).body = [] ∧
    (HandleProxy
      { requestError := fun _ _ => none,
        Do := fun _ => Except.ok
          { StatusCode := 200, Header := [],
            Body := [{ data := [65], err := some GoError.EOF }] } }
      (ResponseWriter.new [])
      { Method := "POST", Path := "/v1/chat/completions", Header := [], Body := [] }).status =
        some 200 ∧
    ([{ data := [65], err := some GoError.EOF }] : List ReadResult).flatMap
      (fun rd => rd.data) = [65] := by
  decide

/-- C5, evaluated where it fails: the upstream answers 200 with the header
X-Upstream: 1.  The header set present on the writer when the status code is
written at line 264 holds X-Upstream but none of the headers of lines 265-269,
which are put into the map only afterwards. -/
theorem HandleProxy_stream_headers_not_sent :
    (HandleProxy
      { requestError := fun _ _ => none,
        Do := fun _ => Except.ok
          { StatusCode := 200, Header := [("X-Upstream", ["1"])], Body := [] } }
      (ResponseWriter.new [])
      { Method := "GET", Path := "/v1/models", Header := [], Body := [] }).sentHeader =
        [("X-Upstream", ["1"])] ∧
    Header.lookup
      (HandleProxy
        { requestError := fun _ _ => none,
          Do := fun _ => Except.ok
            { StatusCode := 200, Header := [("X-Upstream", ["1"])], Body := [] } }
        (ResponseWriter.new [])
        { Method := "GET", Path := "/v1/models", Header := [], Body := [] }).sentHeader
      "Cache-Control" = none ∧
    Header.lookup
      (HandleProxy
        { requestError := fun _ _ => none,
          Do := fun _ => Except.ok
            { StatusCode := 200, Header := [("X-Upstream", ["1"])], Body := [] } }
        (ResponseWriter.new [])
        { Method := "GET", Path := "/v1/models", Header := [], Body := [] }).header
      "Cache-Control" = some ["no-cache"] := by
  decide

/-- C6: whenever HandleProxy builds its outbound request (for an inbound
request with a method, as the server delivers it), that request has the
inbound method, the URL https://api.openai.com followed by the inbound path,
and the inbound body; its header map has Content-Type = application/json,
Connection = keep-alive and Keep-Alive = timeout=360, and every other header
name has exactly its inbound values. -/
theorem outboundRequest_passthrough (net : Net) (r : Request) (req : OutRequest)
    (hm : r.Method ≠ "") (h : outboundRequest net r = Except.ok req) :
    req.Method = r.Method ∧ req.URL = "https://api.openai.com" ++ r.Path ∧
    req.Body = r.Body ∧
    req.Header.lookup "Content-Type" = some ["application/json"] ∧
    req.Header.lookup "Connection" = some ["keep-alive"] ∧
    req.Header.lookup "Keep-Alive" = some ["timeout=360"] ∧
    ∀ name : String, name ≠ "Content-Type" → name ≠ "Connection" → name ≠ "Keep-Alive" →
      req.Header.lookup name = r.Header.lookup name := by
  unfold outboundRequest NewRequest at h
  simp only [if_neg hm] at h
  cases hre : net.requestError r.Method (baseUrl ++ r.Path) with
  | some err => simp [hre] at h
  | none =>
    simp only [hre, Except.ok.injEq] at h
    subst h
    refine ⟨rfl, rfl, rfl, ?_, ?_, ?_, ?_⟩
    · simp only
      rw [Header.lookup_Set_ne _ _ _ _ (by rw [canonical_KeepAlive]; decide),
        Header.lookup_Set_ne _ _ _ _ (by rw [canonical_Connection]; decide)]
      exact Header.lookup_Set_self _ "Content-Type" _
    · simp only
      rw [Header.lookup_Set_ne _ _ _ _ (by rw [canonical_KeepAlive]; decide)]
      exact Header.lookup_Set_self _ "Connection" _
    · exact Header.lookup_Set_self _ "Keep-Alive" _
    · intro name h1 h2 h3
      simp only
      rw [Header.lookup_Set_ne _ _ _ _ (by rw [canonical_KeepAlive]; exact h3),
        Header.lookup_Set_ne _ _ _ _ (by rw [canonical_Connection]; exact h2),
        Header.lookup_Set_ne _ _ _ _ (by rw [canonical_ContentType]; exact h1)]

/-- C6 at a POST of two body bytes with an Accept header: the Accept header
reaches the outbound request unchanged. -/
theorem outboundRequest_passthrough_witness :
    (({ Method := "POST", URL := "https://api.openai.com/v1/chat/completions",
        Header := [("Keep-Alive", ["timeout=360"]), ("Connection", ["keep-alive"]),
                   ("Content-Type", ["application/json"]), ("Accept", ["*/*"])],
        Body := [123, 125], Close := false } : OutRequest).Header.lookup "Accept" =
      ({ Method := "POST", Path := "/v1/chat/completions",
         Header := [("Accept", ["*/*"])], Body := [123, 125] } : Request).Header.lookup
        "Accept") :=
  (outboundRequest_passthrough
    { requestError := fun _ _ => none, Do := fun _ => Except.error GoError.EOF }
    { Method := "POST", Path := "/v1/chat/completions",
      Header := [("Accept", ["*/*"])], Body := [123, 125] }
    { Method := "POST", URL := "https://api.openai.com/v1/chat/completions",
      Header := [("Keep-Alive", ["timeout=360"]), ("Connection", ["keep-alive"]),
                 ("Content-Type", ["application/json"]), ("Accept", ["*/*"])],
      Body := [123, 125], Close := false }
    (by decide) rfl).2.2.2.2.2.2 "Accept" (by decide) (by decide) (by decide)

/-- C7: when the outbound dispatch fails (http.NewRequest or client.Do returns
an error), HandleProxy does exactly what http.Error(w, err.Error(), 500) does
to the fresh writer and nothing else: the status is 500, the headers sent are
the two of the error reply (no upstream header), and the only thing written is
the text of the error, newline-terminated, with no chunk relayed and no
flush (nothing at all if the client connection rejects that write). -/
theorem HandleProxy_dispatch_failure (net : Net) (ws : List (Option GoError)) (r : Request)
    (err : GoError)
    (h : outboundRequest net r = Except.error err ∨
      ∃ req, outboundRequest net r = Except.ok req ∧ net.Do req = Except.error err) :
    HandleProxy net (ResponseWriter.new ws) r = Error (ResponseWriter.new ws) err.Error 500 ∧
    (HandleProxy net (ResponseWriter.new ws) r).status = some 500 ∧
    (HandleProxy net (ResponseWriter.new ws) r).sentHeader =
      [("X-Content-Type-Options", ["nosniff"]),
       ("Content-Type", ["text/plain; charset=utf-8"])] ∧
    (HandleProxy net (ResponseWriter.new ws) r).wire =
      (match ws with
        | some _ :: _ => []
        | _ => [WireEvent.data (bytesOf err.Error ++ [10])]) := by
  have he : HandleProxy net (ResponseWriter.new ws) r =
      Error (ResponseWriter.new ws) err.Error 500 := by
    rcases h with h | ⟨req, h1, h2⟩
    · simp [HandleProxy, h]
    · simp [HandleProxy, h1, h2]
  rw [he]
  exact ⟨rfl, Error_new ws err.Error 500 (by decide)⟩

/-- C7 at a transport that refuses the connection. -/
theorem HandleProxy_dispatch_failure_witness :
    (HandleProxy
      { requestError := fun _ _ => none,
        Do := fun _ => Except.error (GoError.other "dial tcp: connection refused") }
      (ResponseWriter.new [])
      { Method := "GET", Path := "/v1/models", Header := [], Body := [] }).status = some 500 :=
  (HandleProxy_dispatch_failure
    { requestError := fun _ _ => none,
      Do := fun _ => Except.error (GoError.other "dial tcp: connection refused") }
    []
    { Method := "GET", Path := "/v1/models", Header := [], Body := [] }
    (GoError.other "dial tcp: connection refused")
    (Or.inr ⟨_, rfl, rfl⟩)).2.1

/-- The body loop of HandleProxy left on an error other than io.EOF, for an
upstream status that WriteHeader accepts: HandleProxy does what
http.Error(w, err.Error(), 500) does to the writer as the loop left it.  The
status sent stays the upstream status committed at line 264 and the headers
sent stay those copied from the upstream, so the status 500 that line 286
asks for is not sent; the text of the error followed by a newline is written
after what the loop delivered, unless the client connection rejects that
write. -/
theorem HandleProxy_loop_error_after_commit (net : Net) (ws : List (Option GoError))
    (r : Request) (req : OutRequest) (rsp : Response) (w1 : ResponseWriter) (text : String)
    (hcode : ResponseWriter.checkWriteHeaderCode rsp.StatusCode = true)
    (hreq : outboundRequest net r = Except.ok req) (hdo : net.Do req = Except.ok rsp)
    (hloop : relayLoop rsp.Body (beforeLoop rsp (ResponseWriter.new ws)) =
      (w1, GoError.other text)) :
    HandleProxy net (ResponseWriter.new ws) r = Error w1 text 500 ∧
    (HandleProxy net (ResponseWriter.new ws) r).status = some rsp.StatusCode ∧
    (HandleProxy net (ResponseWriter.new ws) r).sentHeader =
      (copyHeader rsp.Header (ResponseWriter.new ws)).header ∧
    (HandleProxy net (ResponseWriter.new ws) r).wire = w1.wire ++
      (match w1.writeErrs with
        | some _ :: _ => []
        | _ => [WireEvent.data (bytesOf text ++ [10])]) := by
  have hnp : (copyHeader rsp.Header (ResponseWriter.new ws)).WriteHeaderPanics
      rsp.StatusCode = false := by
    have hs : (copyHeader rsp.Header (ResponseWriter.new ws)).status = none :=
      (copyHeader_frame rsp.Header (ResponseWriter.new ws)).1
    simp [ResponseWriter.WriteHeaderPanics, hs, hcode]
  have he : HandleProxy net (ResponseWriter.new ws) r = Error w1 text 500 := by
    simp [HandleProxy, hreq, hdo, hnp, hloop]
  have hb := beforeLoop_new rsp ws hcode
  have hl := relayLoop_committed rsp.Body (beforeLoop rsp (ResponseWriter.new ws))
    rsp.StatusCode hb.1
  rw [hloop] at hl
  have hE := Error_committed w1 text 500 rsp.StatusCode hl.1
  rw [he]
  exact ⟨rfl, hE.1, by rw [hE.2.1, hl.2, hb.2.1], hE.2.2⟩

/-- The body loop left on its first read, before any byte was flushed: the
upstream answered 200 and the first read fails with "reset".  The client
sees status 200 with the text of the error as the body, not the status 500
that the same call of http.Error produces at lines 244 and 254. -/
theorem HandleProxy_loop_error_before_flush :
    (HandleProxy
      { requestError := fun _ _ => none,
        Do := fun _ => Except.ok
          { StatusCode := 200, Header := [],
            Body := [{ data := [], err := some (GoError.other "reset") }] } }
      (ResponseWriter.new [])
      { Method := "GET", Path := "/v1/models", Header := [], Body := [] }).status = some 200 ∧
    (HandleProxy
      { requestError := fun _ _ => none,
        Do := fun _ => Except.ok
          { StatusCode := 200, Header := [],
            Body := [{ data := [], err := some (GoError.other "reset") }] } }
      (ResponseWriter.new [])
      { Method := "GET", Path := "/v1/models", Header := [], Body := [] }).wire =
        [WireEvent.data [114, 101, 115, 101, 116, 10]] := by
  decide

/-- A status code without three digits, such as 99, makes WriteHeader panic
at line 264: nothing is committed and nothing is written. -/
theorem HandleProxy_panics_on_bad_status :
    (HandleProxy
      { requestError := fun _ _ => none,
        Do := fun _ => Except.ok
          { StatusCode := 99, Header := [],
            Body := [{ data := [65], err := none }] } }
      (ResponseWriter.new [])
      { Method := "GET", Path := "/v1/models", Header := [], Body := [] }) =
      { header := [], status := none, sentHeader := [], wire := [], writeErrs := [],
        panicked := true } := by
  decide

/-- C8, evaluated where it fails: the upstream answers 200, its body yields
the chunk [65] and then the read error "boom".  When the loop is left one
chunk has been written and flushed; HandleProxy then calls http.Error at line
286, whose status 500 is not sent because the status 200 was committed at
line 264, and whose text is written to the client after the chunk already
delivered. -/
theorem HandleProxy_error_text_after_flush :
    (relayLoop [{ data := [65], err := none }, { data := [], err := some (GoError.other "boom") }]
      (beforeLoop
        { StatusCode := 200, Header := [],
          Body := [{ data := [65], err := none },
                   { data := [], err := some (GoError.other "boom") }] }
        (ResponseWriter.new []))).2 = GoError.other "boom" ∧
    (relayLoop [{ data := [65], err := none }, { data := [], err := some (GoError.other "boom") }]
      (beforeLoop
        { StatusCode := 200, Header := [],
          Body := [{ data := [65], err := none },
                   { data := [], err := some (GoError.other "boom") }] }
        (ResponseWriter.new []))).1.wire = [WireEvent.data [65], WireEvent.flush] ∧
    (HandleProxy
      { requestError := fun _ _ => none,
        Do := fun _ => Except.ok
          { StatusCode := 200, Header := [],
            Body := [{ data := [65], err := none },
                     { data := [], err := some (GoError.other "boom") }] } }
      (ResponseWriter.new [])
      { Method := "POST", Path := "/v1/chat/completions", Header := [], Body := [] }).wire =
        [WireEvent.data [65], WireEvent.flush, WireEvent.data [98, 111, 111, 109, 10]] ∧
    (HandleProxy
      { requestError := fun _ _ => none,
        Do := fun _ => Except.ok
          { StatusCode := 200, Header := [],
            Body := [{ data := [65], err := none },
                     { data := [], err := some (GoError.other "boom") }] } }
      (ResponseWriter.new [])
      { Method := "POST", Path := "/v1/chat/completions", Header := [], Body := [] }).status =
        some 200 := by
  decide

/-- C9 as stated fails: a single credential configured with index 7 is
reported with index 0, its position in the configuration. -/
theorem healthCheck_index_counterexample :
    (healthCheckStatus (fun _ _ _ => ([], none))
      { APIKeys := [{ Index := 7, Key := "sk-1", Type_ := [], Remark := "r" }],
        ExecutorName := "e", SchedulerCenter := "", ReportEnable := false,
        ReportDuration := 0, ListenAddr := ":80" }).APIStatus =
      [{ Index := 0, Key := "sk-1", Usage := 0, Limit := 0, Remark := "r", TypeStatus := [] }] ∧
    ¬ ((healthCheckStatus (fun _ _ _ => ([], none))
      { APIKeys := [{ Index := 7, Key := "sk-1", Type_ := [], Remark := "r" }],
        ExecutorName := "e", SchedulerCenter := "", ReportEnable := false,
        ReportDuration := 0, ListenAddr := ":80" }).APIStatus.map (fun e => e.Index) =
      ([{ Index := 7, Key := "sk-1", Type_ := [], Remark := "r" }] : List APIKey).map
        (fun k => k.Index)) := by
  decide

/-- C9, amended: each entry of the report built by healthCheck for a
successfully probed credential carries, in its index field, the position of
that credential in the configured list (counted from 0), together with that
credential's key; the configured index is not read. -/
theorem healthCheck_index_is_position
    (probe : Nat → String → List String → List TypeStatus × Option GoError)
    (config : Config) (i : Nat) (apiKey : APIKey) (keyStatus : List TypeStatus)
    (hi : config.APIKeys[i]? = some apiKey)
    (hp : probe i apiKey.Key apiKey.Type_ = (keyStatus, none)) :
    ∃ entry, (healthCheckStatus probe config).APIStatus[i]? = some entry ∧
      entry.Index = (i : Int) ∧ entry.Key = apiKey.Key := by
  have hlt : i < config.APIKeys.length := (List.getElem?_eq_some_iff.mp hi).1
  have h := healthCheckLoop_getElem? probe config.APIKeys 0
    (List.replicate config.APIKeys.length APIKeyStatus.zero) i apiKey hi
    (by simpa using hlt)
  simp only [Nat.zero_add] at h
  rw [hp] at h
  exact ⟨_, h, rfl, rfl⟩

/-- C9, amended, at two credentials configured with the indices 5 and 3: the
second one is reported at position 1 with index 1. -/
theorem healthCheck_index_is_position_witness :
    ∃ entry,
      (healthCheckStatus (fun _ _ _ => ([], none))
        { APIKeys := [{ Index := 5, Key := "a", Type_ := [], Remark := "" },
                      { Index := 3, Key := "b", Type_ := [], Remark := "" }],
          ExecutorName := "e", SchedulerCenter := "", ReportEnable := false,
          ReportDuration := 0, ListenAddr := ":80" }).APIStatus[1]? = some entry ∧
      entry.Index = ((1 : Nat) : Int) ∧
      entry.Key = ({ Index := 3, Key := "b", Type_ := [], Remark := "" } : APIKey).Key :=
  healthCheck_index_is_position (fun _ _ _ => ([], none))
    { APIKeys := [{ Index := 5, Key := "a", Type_ := [], Remark := "" },
                  { Index := 3, Key := "b", Type_ := [], Remark := "" }],
      ExecutorName := "e", SchedulerCenter := "", ReportEnable := false,
      ReportDuration := 0, ListenAddr := ":80" }
    1 { Index := 3, Key := "b", Type_ := [], Remark := "" } [] rfl rfl

/-- C10: for every key, every capability list and every order in which the
goroutines complete, when no capability check returns an error the result of
getAPIKeyStatus is a permutation of the capability list in which each
capability is paired with the status that checkTypeStatus returned for it:
each input capability occurs once per occurrence in the input, and nothing
else occurs. -/
theorem getAPIKeyStatus_perm (net : Nat → Net) (sched : List Nat) (key : String)
    (keyTypes : List String)
    (hok : ∀ g ∈ keyTypes.enum, (checkTypeStatus (net g.1) key g.2).2 = none) :
    (getAPIKeyStatus net sched key keyTypes).1.Perm
      (keyTypes.enum.map (fun g =>
        ({ Type_ := g.2, Status := (checkTypeStatus (net g.1) key g.2).1 } : TypeStatus))) := by
  have h := runGoroutines_perm (fun i k t => checkTypeStatus (net i) k t) key keyTypes.length
    sched keyTypes.enum [] (by simp [List.enum_length]) hok
  simpa [getAPIKeyStatus, getAPIKeyStatusWith, getAPIKeyStatusRun] using h

/-- C10 at an upstream that answers 400 for capability x and 200 for
capability y, with the goroutine of y completing first. -/
theorem getAPIKeyStatus_perm_witness :
    (getAPIKeyStatus
      (fun i => { requestError := fun _ _ => none,
                  Do := fun _ => Except.ok
                    { StatusCode := if i = 0 then 400 else 200, Header := [], Body := [] } })
      [1] "sk-1" ["x", "y"]).1.Perm
      [{ Type_ := "x", Status := "active" }, { Type_ := "y", Status := "inactive" }] :=
  getAPIKeyStatus_perm
    (fun i => { requestError := fun _ _ => none,
                Do := fun _ => Except.ok
                  { StatusCode := if i = 0 then 400 else 200, Header := [], Body := [] } })
    [1] "sk-1" ["x", "y"] (by decide)

end ProxyExecutor
